import Mathlib

/-!
Verification of the Slack MCP adapter's channel-resolution, mention-scanning
and tool-dispatch logic, shallowly embedded from the repository's sources
(`src/unnamed/part_001` and `src/build/index.js`).  Upstream Slack API
responses are modelled as an oracle (`World`); every outbound HTTP request the
code would issue is recorded in a trace of `ApiCall`s.
-/

namespace SlackMcp

/-- A channel as returned by `conversations.list`. -/
structure Channel where
  id : String
  name : String
  name_normalized : String
deriving DecidableEq, Repr

/-- A message as returned by `conversations.history`; the adapter only ever
reads its `text` field, which may be absent. -/
structure Msg where
  text : Option String
deriving DecidableEq, Repr

/-- Parsed body of a `conversations.list` response. -/
structure ChannelsResp where
  ok : Bool
  channels : List Channel
deriving DecidableEq, Repr

/-- Parsed body of a `conversations.history` response. -/
structure HistoryResp where
  ok : Bool
  messages : List Msg
deriving DecidableEq, Repr

/-- The value `getMentions` returns: `{ ok: true, messages: ... }`. -/
structure MentionsResult where
  ok : Bool
  messages : List Msg
deriving DecidableEq, Repr

/-- Parsed body of an `auth.test` response. -/
structure AuthResp where
  ok : Bool
  user_id : Option String
deriving DecidableEq, Repr

/-- One outbound HTTP request, as recorded in a trace. -/
inductive ApiCall where
  | listChannels (limit : Nat) (cursor : Option String)
  | history (channel : String) (limit : Nat)
  | threadReplies (channel ts : String)
  | postMessage (channel text : String)
  | postReply (channel ts text : String)
  | usersList (limit : Nat) (cursor : Option String)
  | userProfile (user : String)
  | authTest
deriving DecidableEq, Repr

/-- The upstream oracle: for each kind of request, the response the Slack API
would produce (`none` models a rejected fetch / network failure).
`botTokenSet` models whether `SLACK_BOT_TOKEN` is present in the
environment. -/
structure World where
  botTokenSet : Bool
  listResp : Nat → Option String → Option ChannelsResp
  histResp : String → Nat → Option HistoryResp
  repliesResp : String → String → Option String
  postMsgResp : String → String → Option String
  postReplyResp : String → String → String → Option String
  usersResp : Nat → Option String → Option String
  profileResp : String → Option String
  authResp : Option AuthResp

/-- JavaScript truthiness of an optional string argument: absent (`undefined`)
and the empty string are falsy. -/
def truthy : Option String → Bool
  | none => false
  | some s => !(s == "")

/-- JavaScript `x || d` on an optional numeric argument: absent and `0` are
falsy and yield the default. -/
def jsOr (o : Option Nat) (d : Nat) : Nat :=
  match o with
  | none => d
  | some n => if n = 0 then d else n

/-- A JavaScript default parameter (`limit = 100`): used only when the
argument is absent; `0` is kept. -/
def jsDefault (o : Option Nat) (d : Nat) : Nat := o.getD d

/-- A fallible computation carrying a JS error message on the throw path. -/
abbrev Res (α : Type) := Except String α

/-- `listIsPrefixOfB n l` decides whether `n` is a prefix of `l`. -/
def listIsPrefixOfB : List Char → List Char → Bool
  | [], _ => true
  | _ :: _, [] => false
  | a :: as, b :: bs => a == b && listIsPrefixOfB as bs

/-- `listContainsB n l` decides whether `n` occurs contiguously in `l`. -/
def listContainsB (needle : List Char) : List Char → Bool
  | [] => listIsPrefixOfB needle []
  | c :: rest => listIsPrefixOfB needle (c :: rest) || listContainsB needle rest

/-- JavaScript `hay.includes(needle)`: substring containment. -/
def strIncludes (hay needle : String) : Bool :=
  listContainsB needle.data hay.data

/-- The delimited mention marker built in `getMentions`:
`` const mentionTag = `<@${userId}>` ``. -/
def mentionTag (userId : String) : String := "<@" ++ userId ++ ">"

/-- The filter predicate of `getMentions`:
`msg => msg.text && msg.text.includes(mentionTag)`. -/
def keepMention (userId : String) (m : Msg) : Bool :=
  match m.text with
  | none => false
  | some t => (!(t == "")) && strIncludes t (mentionTag userId)

/-- The match predicate of `resolveChannelId`:
`ch.name === channel_name || ch.name_normalized === channel_name`. -/
def chanMatches (n : String) (ch : Channel) : Bool :=
  ch.name == n || ch.name_normalized == n

/-- `SlackClient.getChannels(limit, cursor)`: issues one `conversations.list`
request with the page size capped at 200 (`Math.min(limit, 200)`). -/
def getChannels (w : World) (lim : Nat) (cursor : Option String) :
    Option ChannelsResp × ApiCall :=
  (w.listResp (min lim 200) cursor, ApiCall.listChannels (min lim 200) cursor)

/-- `resolveChannelId(slackClient, channel_id, channel_name)` from
`src/unnamed/part_001` lines 8-20: return a truthy `channel_id` unchanged;
otherwise resolve a truthy `channel_name` against one page of up to 200
channels; otherwise throw. -/
def resolveChannelId (w : World) (channel_id channel_name : Option String) :
    Res String × List ApiCall :=
  if truthy channel_id then (.ok (channel_id.getD ""), [])
  else if !truthy channel_name then
    (.error "Missing channel_id or channel_name", [])
  else
    let g := getChannels w 200 none
    match g.1 with
    | none => (.error "fetch failed", [g.2])
    | some r =>
      if !r.ok then (.error "Failed to fetch channels list", [g.2])
      else
        match r.channels.find? (chanMatches (channel_name.getD "")) with
        | some ch => (.ok ch.id, [g.2])
        | none =>
          (.error ("Channel with name '" ++ channel_name.getD "" ++ "' not found"),
           [g.2])

/-- The flat argument record of a tool call; absent fields are `none`. -/
structure Args where
  channel_id : Option String := none
  channel_name : Option String := none
  text : Option String := none
  thread_ts : Option String := none
  user_id : Option String := none
  limit : Option Nat := none
  cursor : Option String := none
deriving DecidableEq, Repr

/-- `getChannelMessages(slackClient, args)` from `src/unnamed/part_001`
lines 22-32: resolve the channel, then fetch `conversations.history` with
`limit: (args.limit || 5)`, returning the parsed response as-is. -/
def getChannelMessages (w : World) (args : Args) :
    Res HistoryResp × List ApiCall :=
  match resolveChannelId w args.channel_id args.channel_name with
  | (.error e, tr) => (.error e, tr)
  | (.ok cid, tr) =>
    let lim := jsOr args.limit 5
    match w.histResp cid lim with
    | none => (.error "fetch failed", tr ++ [ApiCall.history cid lim])
    | some d => (.ok d, tr ++ [ApiCall.history cid lim])

/-- The sequential per-channel fetch loop of `getMentions`
(`for (const ch of channelsResp.channels) ...`): fetch each channel's
history in order; a rejected fetch aborts the loop; a non-ok response body
contributes no messages. -/
def scanChannels (w : World) (lim : Nat) : List Channel → Res (List Msg) × List ApiCall
  | [] => (.ok [], [])
  | ch :: rest =>
    match w.histResp ch.id lim with
    | none => (.error "fetch failed", [ApiCall.history ch.id lim])
    | some d =>
      match scanChannels w lim rest with
      | (.error e, tr) => (.error e, ApiCall.history ch.id lim :: tr)
      | (.ok msgs, tr) =>
        (.ok ((if d.ok then d.messages else []) ++ msgs),
         ApiCall.history ch.id lim :: tr)

/-- The scope-resolution step of `getMentions` (line 35):
`args.channel_id || (args.channel_name ? await resolveChannelId(...) : undefined)`. -/
def mentionScope (w : World) (args : Args) :
    Res (Option String) × List ApiCall :=
  if truthy args.channel_id then (.ok args.channel_id, [])
  else if truthy args.channel_name then
    match resolveChannelId w none args.channel_name with
    | (.ok c, tr) => (.ok (some c), tr)
    | (.error e, tr) => (.error e, tr)
  else (.ok none, [])

/-- The message-gathering step of `getMentions` (lines 37-59): with a truthy
channel, one history fetch (non-ok body yields `[]`); without one, list all
channels (non-ok is fatal) and run the per-channel loop. -/
def mentionGather (w : World) (lim : Nat) (copt : Option String) :
    Res (List Msg) × List ApiCall :=
  if truthy copt then
    let cid := copt.getD ""
    match w.histResp cid lim with
    | none => (.error "fetch failed", [ApiCall.history cid lim])
    | some d =>
      (.ok (if d.ok then d.messages else []), [ApiCall.history cid lim])
  else
    let g := getChannels w 200 none
    match g.1 with
    | none => (.error "fetch failed", [g.2])
    | some r =>
      if !r.ok then (.error "Failed to fetch channels list", [g.2])
      else
        let s := scanChannels w lim r.channels
        (s.1, g.2 :: s.2)

/-- `getMentions(slackClient, args, userId)` from `src/unnamed/part_001`
lines 34-64: resolve the scope, gather messages, filter them by the mention
marker and truncate to `args.limit || 10`. -/
def getMentions (w : World) (args : Args) (userId : String) :
    Res MentionsResult × List ApiCall :=
  let lim := jsOr args.limit 10
  match mentionScope w args with
  | (.error e, tr) => (.error e, tr)
  | (.ok copt, tr) =>
    match mentionGather w lim copt with
    | (.error e, tr2) => (.error e, tr ++ tr2)
    | (.ok msgs, tr2) =>
      (.ok ⟨true, (msgs.filter (keepMention userId)).take lim⟩, tr ++ tr2)

/-- The union of upstream response values a handler serializes on success. -/
inductive UResp where
  | channels (r : ChannelsResp)
  | history (r : HistoryResp)
  | mentions (r : MentionsResult)
  | raw (s : String)
deriving DecidableEq, Repr

/-- The single text block the part_001 dispatcher always returns:
`JSON.stringify(response)` on success, `JSON.stringify({ error })` from the
surrounding `catch`. -/
inductive TextOut where
  | jsonOf (u : UResp)
  | jsonError (msg : String)
deriving DecidableEq, Repr

/-- The channel-name resolution block inlined in the `send_message_on_slack`,
`get_channel_history_on_slack` and `get_thread_replies_on_slack` cases of the
part_001 dispatcher: only runs when `channel_id` is falsy and `channel_name`
truthy; otherwise `channelId` keeps its original value. -/
def inlineResolve (w : World) (cid cname : Option String) :
    Res (Option String) × List ApiCall :=
  if !truthy cid && truthy cname then
    let g := getChannels w 200 none
    match g.1 with
    | none => (.error "fetch failed", [g.2])
    | some r =>
      if !r.ok then (.error "Failed to fetch channels list", [g.2])
      else
        match r.channels.find? (chanMatches (cname.getD "")) with
        | some ch => (.ok (some ch.id), [g.2])
        | none =>
          (.error ("Channel with name '" ++ cname.getD "" ++ "' not found"), [g.2])
  else (.ok cid, [])

/-- The `channels_list_on_slack` case: `slackClient.getChannels(args.limit,
args.cursor)`, serializing the response (ok or not) as success. -/
def v1ListChannels (w : World) (args : Args) : Res UResp × List ApiCall :=
  let g := getChannels w (jsDefault args.limit 100) args.cursor
  match g.1 with
  | none => (.error "fetch failed", [g.2])
  | some r => (.ok (.channels r), [g.2])

/-- The `send_message_on_slack` case (part_001 lines 401-426): inline name
resolution first, then the missing-argument checks, then `chat.postMessage`. -/
def v1SendMessage (w : World) (args : Args) : Res UResp × List ApiCall :=
  match inlineResolve w args.channel_id args.channel_name with
  | (.error e, tr) => (.error e, tr)
  | (.ok cidOpt, tr) =>
    if !truthy cidOpt then
      (.error "Missing required argument: channel_id or channel_name", tr)
    else if !truthy args.text then
      (.error "Missing required argument: text", tr)
    else
      let cid := cidOpt.getD ""
      let txt := args.text.getD ""
      match w.postMsgResp cid txt with
      | none => (.error "fetch failed", tr ++ [ApiCall.postMessage cid txt])
      | some s => (.ok (.raw s), tr ++ [ApiCall.postMessage cid txt])

/-- The `reply_to_thread_on_slack` case (part_001 lines 427-437): all three
required arguments are checked up front, before any upstream call. -/
def v1ReplyToThread (w : World) (args : Args) : Res UResp × List ApiCall :=
  if !truthy args.channel_id || !truthy args.thread_ts || !truthy args.text then
    (.error "Missing required arguments: channel_id, thread_ts, and text", [])
  else
    let cid := args.channel_id.getD ""
    let ts := args.thread_ts.getD ""
    let txt := args.text.getD ""
    match w.postReplyResp cid ts txt with
    | none => (.error "fetch failed", [ApiCall.postReply cid ts txt])
    | some s => (.ok (.raw s), [ApiCall.postReply cid ts txt])

/-- The `get_channel_history_on_slack` case: inline resolution, then
`getChannelHistory(channelId, args.limit)` whose JS default parameter is 10. -/
def v1GetChannelHistory (w : World) (args : Args) : Res UResp × List ApiCall :=
  match inlineResolve w args.channel_id args.channel_name with
  | (.error e, tr) => (.error e, tr)
  | (.ok cidOpt, tr) =>
    if !truthy cidOpt then
      (.error "Missing required argument: channel_id or channel_name", tr)
    else
      let cid := cidOpt.getD ""
      let lim := jsDefault args.limit 10
      match w.histResp cid lim with
      | none => (.error "fetch failed", tr ++ [ApiCall.history cid lim])
      | some d => (.ok (.history d), tr ++ [ApiCall.history cid lim])

/-- The `get_thread_replies_on_slack` case: inline resolution, missing-channel
check, missing `thread_ts` check, then `conversations.replies`. -/
def v1GetThreadReplies (w : World) (args : Args) : Res UResp × List ApiCall :=
  match inlineResolve w args.channel_id args.channel_name with
  | (.error e, tr) => (.error e, tr)
  | (.ok cidOpt, tr) =>
    if !truthy cidOpt then
      (.error "Missing required argument: channel_id or channel_name", tr)
    else if !truthy args.thread_ts then
      (.error "Missing required argument: thread_ts", tr)
    else
      let cid := cidOpt.getD ""
      let ts := args.thread_ts.getD ""
      match w.repliesResp cid ts with
      | none => (.error "fetch failed", tr ++ [ApiCall.threadReplies cid ts])
      | some s => (.ok (.raw s), tr ++ [ApiCall.threadReplies cid ts])

/-- The `get_users_on_slack` case: `users.list` with the page size capped at
200 and a JS default parameter of 100. -/
def v1GetUsers (w : World) (args : Args) : Res UResp × List ApiCall :=
  let lim := min (jsDefault args.limit 100) 200
  match w.usersResp lim args.cursor with
  | none => (.error "fetch failed", [ApiCall.usersList lim args.cursor])
  | some s => (.ok (.raw s), [ApiCall.usersList lim args.cursor])

/-- The `get_user_profile_on_slack` case: check `user_id`, then
`users.profile.get`. -/
def v1GetUserProfile (w : World) (args : Args) : Res UResp × List ApiCall :=
  if !truthy args.user_id then (.error "Missing required argument: user_id", [])
  else
    let uid := args.user_id.getD ""
    match w.profileResp uid with
    | none => (.error "fetch failed", [ApiCall.userProfile uid])
    | some s => (.ok (.raw s), [ApiCall.userProfile uid])

/-- The switch body of the part_001 `CallToolRequestSchema` handler
(lines 392-524), with `get_mentions_on_slack` using the hard-coded
`PLACEHOLDER_USER_ID`.  An unrecognized name throws from the `default` case,
still inside the `try`. -/
def v1Core (w : World) (name : String) (args : Args) : Res UResp × List ApiCall :=
  if name = "channels_list_on_slack" then v1ListChannels w args
  else if name = "send_message_on_slack" then v1SendMessage w args
  else if name = "reply_to_thread_on_slack" then v1ReplyToThread w args
  else if name = "get_channel_history_on_slack" then v1GetChannelHistory w args
  else if name = "get_thread_replies_on_slack" then v1GetThreadReplies w args
  else if name = "get_users_on_slack" then v1GetUsers w args
  else if name = "get_user_profile_on_slack" then v1GetUserProfile w args
  else if name = "get_channel_messages_on_slack" then
    match getChannelMessages w args with
    | (.error e, tr) => (.error e, tr)
    | (.ok d, tr) => (.ok (.history d), tr)
  else if name = "get_mentions_on_slack" then
    match getMentions w args "PLACEHOLDER_USER_ID" with
    | (.error e, tr) => (.error e, tr)
    | (.ok r, tr) => (.ok (.mentions r), tr)
  else (.error ("Unknown tool: " ++ name), [])

/-- The full part_001 tool dispatcher (lines 386-539): the whole switch sits
inside one `try`; every thrown error — unknown tool names included — is
caught and returned as a successful response whose text is
`JSON.stringify({ error: message })`. -/
def dispatchV1 (w : World) (name : String) (args? : Option Args) :
    TextOut × List ApiCall :=
  match args? with
  | none => (.jsonError "No arguments provided", [])
  | some args =>
    match v1Core w name args with
    | (.ok u, tr) => (.jsonOf u, tr)
    | (.error e, tr) => (.jsonError e, tr)

/-- Text content of a `SlackMcpServer` handler response: serialized JSON on
success, a plain error sentence otherwise. -/
inductive V2Content where
  | jsonOf (u : UResp)
  | plainText (s : String)
deriving DecidableEq, Repr

/-- A `SlackMcpServer` handler response: one text block plus the `isError`
flag the error paths set. -/
structure V2Resp where
  content : V2Content
  isError : Bool
deriving DecidableEq, Repr

/-- `McpError` codes used by `SlackMcpServer.setupToolHandlers`. -/
inductive McpErrorCode where
  | methodNotFound
  | invalidRequest
deriving DecidableEq, Repr

/-- A transport-level fault: an `McpError` thrown out of the request handler
rather than returned as content. -/
structure McpFault where
  code : McpErrorCode
  message : String
deriving DecidableEq, Repr

/-- The "Slack client not initialized." guard response shared by every
`SlackMcpServer` handler. -/
def clientNotInit : V2Resp := ⟨.plainText "Slack client not initialized.", true⟩

/-- `SlackMcpServer.handleListChannels` (build/index.js lines 601-613). -/
def handleListChannels (w : World) (args : Args) : V2Resp × List ApiCall :=
  if !w.botTokenSet then (clientNotInit, [])
  else
    let g := getChannels w (jsDefault args.limit 100) args.cursor
    match g.1 with
    | none => (⟨.plainText "Error listing channels: fetch failed", true⟩, [g.2])
    | some r => (⟨.jsonOf (.channels r), false⟩, [g.2])

/-- The `channelId` computation shared by the posting/history/replies handlers
of `SlackMcpServer`: falsy `channel_id` with truthy `channel_name` goes
through `resolveChannelId`; otherwise `channelId` keeps its original value. -/
def v2Resolve (w : World) (cid cname : Option String) :
    Res (Option String) × List ApiCall :=
  if !truthy cid && truthy cname then
    match resolveChannelId w none cname with
    | (.ok c, tr) => (.ok (some c), tr)
    | (.error e, tr) => (.error e, tr)
  else (.ok cid, [])

/-- `SlackMcpServer.handlePostMessage` (lines 614-633): resolution errors are
caught into an `Error sending message:` payload; a falsy `channelId` yields
the missing-argument payload; then `chat.postMessage`. -/
def handlePostMessage (w : World) (args : Args) : V2Resp × List ApiCall :=
  if !w.botTokenSet then (clientNotInit, [])
  else
    match v2Resolve w args.channel_id args.channel_name with
    | (.error e, tr) => (⟨.plainText ("Error sending message: " ++ e), true⟩, tr)
    | (.ok cOpt, tr) =>
      if !truthy cOpt then
        (⟨.plainText "Missing channel_id or channel_name.", true⟩, tr)
      else
        let cid := cOpt.getD ""
        let txt := args.text.getD ""
        match w.postMsgResp cid txt with
        | none =>
          (⟨.plainText "Error sending message: fetch failed", true⟩,
           tr ++ [ApiCall.postMessage cid txt])
        | some s => (⟨.jsonOf (.raw s), false⟩, tr ++ [ApiCall.postMessage cid txt])

/-- `SlackMcpServer.handleReplyToThread` (lines 634-653). -/
def handleReplyToThread (w : World) (args : Args) : V2Resp × List ApiCall :=
  if !w.botTokenSet then (clientNotInit, [])
  else
    match v2Resolve w args.channel_id args.channel_name with
    | (.error e, tr) => (⟨.plainText ("Error replying to thread: " ++ e), true⟩, tr)
    | (.ok cOpt, tr) =>
      if !truthy cOpt then
        (⟨.plainText "Missing channel_id or channel_name.", true⟩, tr)
      else
        let cid := cOpt.getD ""
        let ts := args.thread_ts.getD ""
        let txt := args.text.getD ""
        match w.postReplyResp cid ts txt with
        | none =>
          (⟨.plainText "Error replying to thread: fetch failed", true⟩,
           tr ++ [ApiCall.postReply cid ts txt])
        | some s =>
          (⟨.jsonOf (.raw s), false⟩, tr ++ [ApiCall.postReply cid ts txt])

/-- `SlackMcpServer.handleGetChannelHistory` (lines 654-673):
`getChannelHistory(channelId, args.limit)` has a JS default parameter of 10. -/
def handleGetChannelHistory (w : World) (args : Args) : V2Resp × List ApiCall :=
  if !w.botTokenSet then (clientNotInit, [])
  else
    match v2Resolve w args.channel_id args.channel_name with
    | (.error e, tr) =>
      (⟨.plainText ("Error getting channel history: " ++ e), true⟩, tr)
    | (.ok cOpt, tr) =>
      if !truthy cOpt then
        (⟨.plainText "Missing channel_id or channel_name.", true⟩, tr)
      else
        let cid := cOpt.getD ""
        let lim := jsDefault args.limit 10
        match w.histResp cid lim with
        | none =>
          (⟨.plainText "Error getting channel history: fetch failed", true⟩,
           tr ++ [ApiCall.history cid lim])
        | some d =>
          (⟨.jsonOf (.history d), false⟩, tr ++ [ApiCall.history cid lim])

/-- `SlackMcpServer.handleGetThreadReplies` (lines 674-693). -/
def handleGetThreadReplies (w : World) (args : Args) : V2Resp × List ApiCall :=
  if !w.botTokenSet then (clientNotInit, [])
  else
    match v2Resolve w args.channel_id args.channel_name with
    | (.error e, tr) =>
      (⟨.plainText ("Error getting thread replies: " ++ e), true⟩, tr)
    | (.ok cOpt, tr) =>
      if !truthy cOpt then
        (⟨.plainText "Missing channel_id or channel_name.", true⟩, tr)
      else
        let cid := cOpt.getD ""
        let ts := args.thread_ts.getD ""
        match w.repliesResp cid ts with
        | none =>
          (⟨.plainText "Error getting thread replies: fetch failed", true⟩,
           tr ++ [ApiCall.threadReplies cid ts])
        | some s =>
          (⟨.jsonOf (.raw s), false⟩, tr ++ [ApiCall.threadReplies cid ts])

/-- `SlackMcpServer.handleGetUsers` (lines 694-706). -/
def handleGetUsers (w : World) (args : Args) : V2Resp × List ApiCall :=
  if !w.botTokenSet then (clientNotInit, [])
  else
    let lim := min (jsDefault args.limit 100) 200
    match w.usersResp lim args.cursor with
    | none =>
      (⟨.plainText "Error getting users: fetch failed", true⟩,
       [ApiCall.usersList lim args.cursor])
    | some s => (⟨.jsonOf (.raw s), false⟩, [ApiCall.usersList lim args.cursor])

/-- `SlackMcpServer.handleGetUserProfile` (lines 707-719). -/
def handleGetUserProfile (w : World) (args : Args) : V2Resp × List ApiCall :=
  if !w.botTokenSet then (clientNotInit, [])
  else
    let uid := args.user_id.getD ""
    match w.profileResp uid with
    | none =>
      (⟨.plainText "Error getting user profile: fetch failed", true⟩,
       [ApiCall.userProfile uid])
    | some s => (⟨.jsonOf (.raw s), false⟩, [ApiCall.userProfile uid])

/-- `SlackMcpServer.handleGetChannelMessages` (lines 720-732): wraps the
shared `getChannelMessages`. -/
def handleGetChannelMessages (w : World) (args : Args) : V2Resp × List ApiCall :=
  if !w.botTokenSet then (clientNotInit, [])
  else
    match getChannelMessages w args with
    | (.error e, tr) =>
      (⟨.plainText ("Error getting channel messages: " ++ e), true⟩, tr)
    | (.ok d, tr) => (⟨.jsonOf (.history d), false⟩, tr)

/-- `SlackMcpServer.fetchBotUserId` (lines 526-545): one `auth.test` request;
the cached id is only overwritten when the response is ok with a truthy
`user_id`; every failure (rejection included) is caught and merely logged. -/
def fetchBotUserId (w : World) (st : Option String) :
    Option String × List ApiCall :=
  if !w.botTokenSet then (st, [])
  else
    match w.authResp with
    | none => (st, [ApiCall.authTest])
    | some d =>
      if d.ok && truthy d.user_id then (d.user_id, [ApiCall.authTest])
      else (st, [ApiCall.authTest])

/-- `SlackMcpServer.handleGetMentions` (lines 733-751): refetch the bot user
id when the cached value is falsy; give up if still falsy; otherwise run the
shared `getMentions` with the cached id.  Returns the new cached value, the
response and the trace. -/
def handleGetMentions (w : World) (st : Option String) (args : Args) :
    Option String × V2Resp × List ApiCall :=
  if !w.botTokenSet then (st, clientNotInit, [])
  else if !truthy st then
    let (st2, tr) := fetchBotUserId w st
    if !truthy st2 then
      (st2, ⟨.plainText "Slack Bot User ID not available.", true⟩, tr)
    else
      match getMentions w args (st2.getD "") with
      | (.ok r, tr2) => (st2, ⟨.jsonOf (.mentions r), false⟩, tr ++ tr2)
      | (.error e, tr2) =>
        (st2, ⟨.plainText ("Error getting mentions: " ++ e), true⟩, tr ++ tr2)
  else
    match getMentions w args (st.getD "") with
    | (.ok r, tr2) => (st, ⟨.jsonOf (.mentions r), false⟩, tr2)
    | (.error e, tr2) =>
      (st, ⟨.plainText ("Error getting mentions: " ++ e), true⟩, tr2)

/-- The `SlackMcpServer` dispatcher (`setupToolHandlers`, lines 560-599):
no surrounding `try`; the `reply_to_thread`, `get_thread_replies` and
`get_user_profile` cases throw `McpError` when the named arguments are absent,
and the `default` case throws `McpError(MethodNotFound)` — all transport-level
faults.  Recognized calls return the handler's response. -/
def dispatchV2 (w : World) (st : Option String) (name : String) (args : Args) :
    Except McpFault (Option String × V2Resp) × List ApiCall :=
  if name = "channels_list_on_slack" then
    match handleListChannels w args with
    | (r, tr) => (.ok (st, r), tr)
  else if name = "send_message_on_slack" then
    match handlePostMessage w args with
    | (r, tr) => (.ok (st, r), tr)
  else if name = "reply_to_thread_on_slack" then
    if args.thread_ts.isSome && args.text.isSome then
      match handleReplyToThread w args with
      | (r, tr) => (.ok (st, r), tr)
    else
      (.error ⟨.invalidRequest,
        "Missing required arguments: thread_ts and text for reply_to_thread_on_slack"⟩, [])
  else if name = "get_channel_history_on_slack" then
    match handleGetChannelHistory w args with
    | (r, tr) => (.ok (st, r), tr)
  else if name = "get_thread_replies_on_slack" then
    if args.thread_ts.isSome then
      match handleGetThreadReplies w args with
      | (r, tr) => (.ok (st, r), tr)
    else
      (.error ⟨.invalidRequest,
        "Missing required argument: thread_ts for get_thread_replies_on_slack"⟩, [])
  else if name = "get_users_on_slack" then
    match handleGetUsers w args with
    | (r, tr) => (.ok (st, r), tr)
  else if name = "get_user_profile_on_slack" then
    if args.user_id.isSome then
      match handleGetUserProfile w args with
      | (r, tr) => (.ok (st, r), tr)
    else
      (.error ⟨.invalidRequest,
        "Missing required argument: user_id for get_user_profile_on_slack"⟩, [])
  else if name = "get_channel_messages_on_slack" then
    match handleGetChannelMessages w args with
    | (r, tr) => (.ok (st, r), tr)
  else if name = "get_mentions_on_slack" then
    match handleGetMentions w st args with
    | (st2, r, tr) => (.ok (st2, r), tr)
  else (.error ⟨.methodNotFound, "Unknown tool: " ++ name⟩, [])

/-- `SlackMcpServer.run` (lines 755-765) up to its identity fetch: with no
bot token the client stays `null` and `run` returns before fetching;
otherwise it performs the startup `fetchBotUserId` on an empty cache. -/
def runStartup (w : World) : Option String × List ApiCall :=
  if !w.botTokenSet then (none, [])
  else fetchBotUserId w none

/-- The nine operation names registered by both server variants. -/
def isKnownTool (n : String) : Bool :=
  n = "channels_list_on_slack" || n = "send_message_on_slack" ||
  n = "reply_to_thread_on_slack" || n = "get_channel_history_on_slack" ||
  n = "get_thread_replies_on_slack" || n = "get_users_on_slack" ||
  n = "get_user_profile_on_slack" || n = "get_channel_messages_on_slack" ||
  n = "get_mentions_on_slack"

/-- The argument-presence guards the `SlackMcpServer` dispatcher applies
before invoking a recognized handler. -/
def guardsPass (n : String) (args : Args) : Bool :=
  if n = "reply_to_thread_on_slack" then args.thread_ts.isSome && args.text.isSome
  else if n = "get_thread_replies_on_slack" then args.thread_ts.isSome
  else if n = "get_user_profile_on_slack" then args.user_id.isSome
  else true

/-- Per-channel message contribution of the unscoped scan loop: the response
body's messages when the fetch succeeded with `ok`, nothing otherwise. -/
def chanMsgs (w : World) (lim : Nat) (ch : Channel) : List Msg :=
  match w.histResp ch.id lim with
  | some d => if d.ok then d.messages else []
  | none => []

/-- Whether a recorded request is the `auth.test` identity fetch. -/
def isAuthCall : ApiCall → Bool
  | .authTest => true
  | _ => false

/-- A world in which every upstream request is rejected. -/
def baseWorld : World where
  botTokenSet := true
  listResp := fun _ _ => none
  histResp := fun _ _ => none
  repliesResp := fun _ _ => none
  postMsgResp := fun _ _ => none
  postReplyResp := fun _ _ _ => none
  usersResp := fun _ _ => none
  profileResp := fun _ => none
  authResp := none

/-- Fixture channel "general". -/
def chGeneral : Channel := ⟨"C001", "general", "general"⟩

/-- Fixture channel "random". -/
def chRandom : Channel := ⟨"C002", "random", "random"⟩

/-- Fixture messages, all mentioning `U123`. -/
def mA1 : Msg := ⟨some "hey <@U123> a1"⟩

def mA2 : Msg := ⟨some "<@U123> a2"⟩

def mA3 : Msg := ⟨some "a3 for <@U123>"⟩

def mB1 : Msg := ⟨some "ping <@U123> b1"⟩

def mB2 : Msg := ⟨some "b2 <@U123>"⟩

def mB3 : Msg := ⟨some "<@U123> b3"⟩

/-- Fixture world: two channels with three matching messages each, and a
working identity endpoint. -/
def wFix : World := { baseWorld with
  listResp := fun _ _ => some ⟨true, [chGeneral, chRandom]⟩
  histResp := fun cid _ =>
    if cid == "C001" then some ⟨true, [mA1, mA2, mA3]⟩
    else if cid == "C002" then some ⟨true, [mB1, mB2, mB3]⟩
    else none
  authResp := some ⟨true, some "U123"⟩ }

/-- An argument record with every field absent. -/
def args0 : Args := {}

/-- C7: a call to the channel resolver with a (truthy) identifier present
returns that identifier unchanged and issues no upstream call, whatever the
`channel_name` argument holds. -/
theorem c7_resolver_identifier_passthrough (w : World) (cid : String)
    (cname : Option String) (h : cid ≠ "") :
    resolveChannelId w (some cid) cname = (.ok cid, []) := by
  simp [resolveChannelId, truthy, h]

/-- Witness for C7 at a concrete identifier and name. -/
theorem c7_witness :
    resolveChannelId baseWorld (some "C123") (some "general") = (.ok "C123", []) :=
  c7_resolver_identifier_passthrough baseWorld "C123" (some "general") (by decide)

/-- C2: the mention filter keeps a message with text `t` exactly when `t`
contains the delimited marker `<@u>` as a literal substring; a message with
the exact `U123` marker is kept, and one containing only the `U1234` marker
is dropped because the closing delimiter must follow the identifier. -/
theorem c2_mention_filter (u t : String) :
    keepMention u ⟨some t⟩ = strIncludes t (mentionTag u)
    ∧ keepMention "U123" ⟨some "ping <@U123> hello"⟩ = true
    ∧ keepMention "U123" ⟨some "ping <@U1234> hello"⟩ = false := by
  refine ⟨?_, by decide, by decide⟩
  by_cases h : t = ""
  · subst h
    have hd : (mentionTag u).data = '<' :: '@' :: (u.data ++ ['>']) := by
      cases u with
      | mk l => rfl
    have hinc : strIncludes "" (mentionTag u) = false := by
      simp [strIncludes, hd, listContainsB, listIsPrefixOfB]
    simp [keepMention, hinc]
  · simp [keepMention, h]

/-- C10: a falsy `limit` (zero or absent) makes both `getChannelMessages`
and `getMentions` behave exactly as if `limit` were absent, substituting the
defaults 5 and 10; the effective limit is therefore never zero. -/
theorem c10_falsy_limit_defaults (w : World) (args : Args) (uid : String)
    (h : args.limit = some 0) :
    getChannelMessages w args = getChannelMessages w { args with limit := none }
    ∧ getMentions w args uid = getMentions w { args with limit := none } uid
    ∧ jsOr args.limit 5 = 5 ∧ jsOr args.limit 10 = 10
    ∧ 0 < jsOr args.limit 5 ∧ 0 < jsOr args.limit 10 := by
  obtain ⟨ci, cn, tx, ts, ui, l, cu⟩ := args
  simp only at h
  subst h
  exact ⟨rfl, rfl, rfl, rfl, show (0 : Nat) < 5 by decide, show (0 : Nat) < 10 by decide⟩

/-- Witness for C10: with `limit = 0` the channel-messages tool requests the
default five messages. -/
theorem c10_witness :
    getChannelMessages wFix { channel_id := some "C001", limit := some 0 } =
      getChannelMessages wFix { channel_id := some "C001", limit := none }
    ∧ jsOr (some 0) 5 = 5 :=
  ⟨(c10_falsy_limit_defaults wFix { channel_id := some "C001", limit := some 0 }
      "U123" rfl).1,
   (c10_falsy_limit_defaults wFix { channel_id := some "C001", limit := some 0 }
      "U123" rfl).2.2.1⟩

/-- Unfolding of the resolver's by-name branch against an ok list response. -/
theorem resolveChannelId_name_eq (w : World) (n : String) (r : ChannelsResp)
    (hn : n ≠ "") (hr : w.listResp 200 none = some r) (hok : r.ok = true) :
    resolveChannelId w none (some n) =
      (match r.channels.find? (chanMatches n) with
       | some ch => (.ok ch.id, [ApiCall.listChannels 200 none])
       | none => (.error ("Channel with name '" ++ n ++ "' not found"),
                  [ApiCall.listChannels 200 none])) := by
  simp [resolveChannelId, truthy, hn, getChannels, hr, hok]

/-- C1: with no identifier and a nonempty name, the resolver issues exactly
one channel-list request with page size 200 and returns the identifier of the
first listed channel whose `name` or `name_normalized` equals the name
exactly; if none matches it fails with a not-found error naming the value. -/
theorem c1_resolver_name_lookup (w : World) (n : String) (r : ChannelsResp)
    (hn : n ≠ "") (hr : w.listResp 200 none = some r) (hok : r.ok = true) :
    (resolveChannelId w none (some n)).2 = [ApiCall.listChannels 200 none]
    ∧ (∀ ch, r.channels.find? (chanMatches n) = some ch →
        (resolveChannelId w none (some n)).1 = .ok ch.id)
    ∧ (r.channels.find? (chanMatches n) = none →
        (resolveChannelId w none (some n)).1 =
          .error ("Channel with name '" ++ n ++ "' not found")) := by
  have he := resolveChannelId_name_eq w n r hn hr hok
  refine ⟨?_, ?_, ?_⟩
  · rw [he]
    cases r.channels.find? (chanMatches n) <;> rfl
  · intro ch hch
    rw [he, hch]
  · intro hch
    rw [he, hch]

/-- Witness for C1 against the fixture list: "random" resolves to its
identifier, an absent name yields the not-found error. -/
theorem c1_witness :
    (resolveChannelId wFix none (some "random")).1 = .ok "C002"
    ∧ (resolveChannelId wFix none (some "missing")).1 =
        .error "Channel with name 'missing' not found" :=
  ⟨(c1_resolver_name_lookup wFix "random" ⟨true, [chGeneral, chRandom]⟩
      (by decide) rfl rfl).2.1 chRandom (by decide),
   (c1_resolver_name_lookup wFix "missing" ⟨true, [chGeneral, chRandom]⟩
      (by decide) rfl rfl).2.2 (by decide)⟩

/-- C8: a mention scan scoped to a channel — directly by identifier, or via a
successful name resolution — issues exactly one history fetch for that
channel, and the only possible channel-list request is the single one name
resolution itself performs. -/
theorem c8_scoped_scan_frame (w : World) (args : Args) (uid : String) :
    (truthy args.channel_id = true →
      (getMentions w args uid).2 =
        [ApiCall.history (args.channel_id.getD "") (jsOr args.limit 10)])
    ∧ (∀ n r ch, args.channel_id = none → args.channel_name = some n → n ≠ "" →
        w.listResp 200 none = some r → r.ok = true →
        r.channels.find? (chanMatches n) = some ch → ch.id ≠ "" →
        (getMentions w args uid).2 =
          [ApiCall.listChannels 200 none,
           ApiCall.history ch.id (jsOr args.limit 10)]) := by
  constructor
  · intro h
    cases hh : w.histResp (args.channel_id.getD "") (jsOr args.limit 10) with
    | none => simp [getMentions, mentionScope, h, mentionGather, hh]
    | some d => simp [getMentions, mentionScope, h, mentionGather, hh]
  · intro n r ch hid hname hn hr hok hf hch
    have hres := resolveChannelId_name_eq w n r hn hr hok
    rw [hf] at hres
    have hchT : truthy (some ch.id) = true := by simp [truthy, hch]
    cases hh : w.histResp ch.id (jsOr args.limit 10) with
    | none =>
      simp [getMentions, mentionScope, hid, hname, hn, truthy, hres,
        mentionGather, hchT, hh, hch]
    | some d =>
      simp [getMentions, mentionScope, hid, hname, hn, truthy, hres,
        mentionGather, hchT, hh, hch]

/-- Witness for C8: a scan scoped by identifier performs one history fetch
and no channel-list request; one scoped by name performs the resolver's
single list request and then the one history fetch. -/
theorem c8_witness :
    (getMentions wFix { channel_id := some "C001" } "U123").2 =
      [ApiCall.history "C001" 10]
    ∧ (getMentions wFix { channel_name := some "random" } "U123").2 =
        [ApiCall.listChannels 200 none, ApiCall.history "C002" 10] :=
  ⟨(c8_scoped_scan_frame wFix { channel_id := some "C001" } "U123").1 rfl,
   (c8_scoped_scan_frame wFix { channel_name := some "random" } "U123").2
     "random" ⟨true, [chGeneral, chRandom]⟩ chRandom rfl rfl (by decide)
     rfl rfl (by decide) (by decide)⟩

/-- When every per-channel history fetch returns a response, the sequential
loop succeeds with the concatenation of the per-channel contributions, and
its trace is one history request per channel in list order. -/
theorem scanChannels_all_some (w : World) (lim : Nat) (l : List Channel)
    (h : l.all (fun ch => (w.histResp ch.id lim).isSome) = true) :
    scanChannels w lim l =
      (.ok ((l.map (chanMsgs w lim)).flatten),
       l.map (fun ch => ApiCall.history ch.id lim)) := by
  induction l with
  | nil => rfl
  | cons ch rest ih =>
    simp only [List.all_cons, Bool.and_eq_true] at h
    obtain ⟨h1, h2⟩ := h
    cases hh : w.histResp ch.id lim with
    | none => rw [hh] at h1; simp at h1
    | some d =>
      simp [scanChannels, hh, ih h2, chanMsgs]

/-- With both channel arguments falsy, the scope step selects no channel and
issues no request. -/
theorem mentionScope_unscoped (w : World) (args : Args)
    (hcid : truthy args.channel_id = false) (hcn : truthy args.channel_name = false) :
    mentionScope w args = (.ok none, []) := by
  simp [mentionScope, hcid, hcn]

/-- With no scope channel, an ok channel list and responding history fetches,
the gather step returns the concatenated per-channel contributions. -/
theorem mentionGather_unscoped_ok (w : World) (lim : Nat) (r : ChannelsResp)
    (hr : w.listResp 200 none = some r) (hok : r.ok = true)
    (hall : r.channels.all (fun ch => (w.histResp ch.id lim).isSome) = true) :
    mentionGather w lim none =
      (.ok ((r.channels.map (chanMsgs w lim)).flatten),
       ApiCall.listChannels 200 none ::
         r.channels.map (fun ch => ApiCall.history ch.id lim)) := by
  simp [mentionGather, truthy, getChannels, hr, hok,
    scanChannels_all_some w lim r.channels hall]

/-- Full evaluation of an unscoped scan whose list call is ok and whose
history fetches all respond. -/
theorem getMentions_unscoped_eq (w : World) (args : Args) (uid : String)
    (r : ChannelsResp)
    (hcid : truthy args.channel_id = false) (hcn : truthy args.channel_name = false)
    (hr : w.listResp 200 none = some r) (hok : r.ok = true)
    (hall : r.channels.all
      (fun ch => (w.histResp ch.id (jsOr args.limit 10)).isSome) = true) :
    getMentions w args uid =
      (.ok ⟨true,
        (((r.channels.map (chanMsgs w (jsOr args.limit 10))).flatten).filter
            (keepMention uid)).take (jsOr args.limit 10)⟩,
       ApiCall.listChannels 200 none ::
         r.channels.map (fun ch => ApiCall.history ch.id (jsOr args.limit 10))) := by
  simp only [getMentions, mentionScope_unscoped w args hcid hcn,
    mentionGather_unscoped_ok w (jsOr args.limit 10) r hr hok hall,
    List.nil_append]

/-- C3: an unscoped mention scan over an ok first page of channels, all of
whose history fetches respond, returns the channels' per-channel messages
concatenated in fetch order, filtered by the identity marker and truncated
to the first `limit` entries; its trace is the one list request followed by
one history request per channel. -/
theorem c3_unscoped_scan_order (w : World) (args : Args) (uid : String)
    (r : ChannelsResp)
    (hcid : truthy args.channel_id = false) (hcn : truthy args.channel_name = false)
    (hr : w.listResp 200 none = some r) (hok : r.ok = true)
    (hall : r.channels.all
      (fun ch => (w.histResp ch.id (jsOr args.limit 10)).isSome) = true) :
    getMentions w args uid =
      (.ok ⟨true,
        (((r.channels.map (chanMsgs w (jsOr args.limit 10))).flatten).filter
            (keepMention uid)).take (jsOr args.limit 10)⟩,
       ApiCall.listChannels 200 none ::
         r.channels.map (fun ch => ApiCall.history ch.id (jsOr args.limit 10))) :=
  getMentions_unscoped_eq w args uid r hcid hcn hr hok hall

/-- Witness for C3: two fixture channels with three matching messages each
and limit 4 yield exactly the first four messages in channel-then-intra-
channel order. -/
theorem c3_witness :
    (getMentions wFix { limit := some 4 } "U123").1 =
      .ok ⟨true, [mA1, mA2, mA3, mB1]⟩ := by
  have h := c3_unscoped_scan_order wFix { limit := some 4 } "U123"
    ⟨true, [chGeneral, chRandom]⟩ rfl rfl rfl rfl (by decide)
  rw [h]
  rfl

/-- World for the C4 counterexample: the first channel's history fetch
responds non-ok, the second responds normally. -/
def w4 : World := { baseWorld with
  listResp := fun _ _ => some ⟨true, [chGeneral, chRandom]⟩
  histResp := fun cid _ =>
    if cid == "C001" then some ⟨false, []⟩
    else if cid == "C002" then some ⟨true, [mB1]⟩
    else none }

/-- Counterexample to C4 as stated: in an unscoped scan, a non-ok response on
an individual channel's message fetch does not fail the scan — the channel is
silently skipped and the scan still succeeds with the other channel's
matches. -/
theorem c4_counterexample :
    (getMentions w4 args0 "U123").1 = .ok ⟨true, [mB1]⟩ := rfl

/-- If some channel's history fetch is rejected, the sequential loop aborts
with the rejection error. -/
theorem scanChannels_err_of_none (w : World) (lim : Nat) (l : List Channel)
    (h : ∃ ch ∈ l, w.histResp ch.id lim = none) :
    (scanChannels w lim l).1 = .error "fetch failed" := by
  induction l with
  | nil => simp at h
  | cons ch rest ih =>
    cases hh : w.histResp ch.id lim with
    | none => simp [scanChannels, hh]
    | some d =>
      have hrest : ∃ c ∈ rest, w.histResp c.id lim = none := by
        obtain ⟨c, hc, hnone⟩ := h
        rcases List.mem_cons.mp hc with h1 | h1
        · subst h1
          rw [hh] at hnone
          cases hnone
        · exact ⟨c, h1, hnone⟩
      have hr := ih hrest
      cases hsc : scanChannels w lim rest with
      | mk res tr =>
        rw [hsc] at hr
        cases res with
        | error e =>
          simp only at hr
          simp [scanChannels, hh, hsc, hr]
        | ok msgs => simp at hr

/-- C4 amended: in an unscoped scan, a non-ok (or rejected) response to the
channel-list call fails the whole scan, and a rejected individual history
fetch propagates as a failure; but a non-ok response body on an individual
history fetch is silently skipped, so when every fetch responds the scan
succeeds regardless of per-channel `ok` flags. -/
theorem c4_amended_failure_semantics (w : World) (args : Args) (uid : String)
    (hcid : truthy args.channel_id = false) (hcn : truthy args.channel_name = false) :
    (∀ r, w.listResp 200 none = some r → r.ok = false →
       (getMentions w args uid).1 = .error "Failed to fetch channels list")
    ∧ (w.listResp 200 none = none →
       (getMentions w args uid).1 = .error "fetch failed")
    ∧ (∀ r, w.listResp 200 none = some r → r.ok = true →
        (∃ ch ∈ r.channels, w.histResp ch.id (jsOr args.limit 10) = none) →
        (getMentions w args uid).1 = .error "fetch failed")
    ∧ (∀ r, w.listResp 200 none = some r → r.ok = true →
        r.channels.all
          (fun ch => (w.histResp ch.id (jsOr args.limit 10)).isSome) = true →
        ∃ res, (getMentions w args uid).1 = .ok res) := by
  refine ⟨?_, ?_, ?_, ?_⟩
  · intro r hr hok
    simp [getMentions, mentionScope_unscoped w args hcid hcn, mentionGather,
      truthy, getChannels, hr, hok]
  · intro hr
    simp [getMentions, mentionScope_unscoped w args hcid hcn, mentionGather,
      truthy, getChannels, hr]
  · intro r hr hok hex
    have hs := scanChannels_err_of_none w (jsOr args.limit 10) r.channels hex
    cases hsc : scanChannels w (jsOr args.limit 10) r.channels with
    | mk res tr =>
      rw [hsc] at hs
      cases res with
      | error e =>
        simp only at hs
        simp [getMentions, mentionScope_unscoped w args hcid hcn, mentionGather,
          truthy, getChannels, hr, hok, hsc, hs]
      | ok msgs => simp at hs
  · intro r hr hok hall
    have h3 := getMentions_unscoped_eq w args uid r hcid hcn hr hok hall
    have hres : (getMentions w args uid).1 = .ok ⟨true,
        (((r.channels.map (chanMsgs w (jsOr args.limit 10))).flatten).filter
            (keepMention uid)).take (jsOr args.limit 10)⟩ := by rw [h3]
    exact ⟨_, hres⟩

/-- Witness for C4 amended: with the single fixture channel's history fetch
rejected, the whole unscoped scan fails. -/
theorem c4_witness :
    (getMentions { baseWorld with
        listResp := fun _ _ => some ⟨true, [chGeneral]⟩ } args0 "U123").1 =
      .error "fetch failed" :=
  (c4_amended_failure_semantics
      { baseWorld with listResp := fun _ _ => some ⟨true, [chGeneral]⟩ }
      args0 "U123" rfl rfl).2.2.1 ⟨true, [chGeneral]⟩ rfl rfl
    ⟨chGeneral, by decide, rfl⟩

/-- The channel resolver never issues the identity fetch. -/
theorem resolveChannelId_no_auth (w : World) (a b : Option String) :
    ∀ c ∈ (resolveChannelId w a b).2, isAuthCall c = false := by
  intro c hc
  simp only [resolveChannelId, getChannels] at hc
  repeat' split at hc
  all_goals simp_all [isAuthCall]

/-- The scope step never issues the identity fetch. -/
theorem mentionScope_no_auth (w : World) (args : Args) :
    ∀ c ∈ (mentionScope w args).2, isAuthCall c = false := by
  intro c hc
  unfold mentionScope at hc
  split at hc
  · simp at hc
  · split at hc
    · split at hc
      case _ cid tr heq =>
        exact resolveChannelId_no_auth w none args.channel_name c (by rw [heq]; exact hc)
      case _ e tr heq =>
        exact resolveChannelId_no_auth w none args.channel_name c (by rw [heq]; exact hc)
    · simp at hc

/-- The per-channel loop never issues the identity fetch. -/
theorem scanChannels_no_auth (w : World) (lim : Nat) (l : List Channel) :
    ∀ c ∈ (scanChannels w lim l).2, isAuthCall c = false := by
  induction l with
  | nil =>
    intro c hc
    simp [scanChannels] at hc
  | cons ch rest ih =>
    intro c hc
    unfold scanChannels at hc
    split at hc
    · simp at hc
      subst hc
      rfl
    · split at hc
      case _ e tr heq =>
        rcases List.mem_cons.mp hc with h1 | h1
        · subst h1
          rfl
        · exact ih c (by rw [heq]; exact h1)
      case _ msgs tr heq =>
        rcases List.mem_cons.mp hc with h1 | h1
        · subst h1
          rfl
        · exact ih c (by rw [heq]; exact h1)

/-- The gather step never issues the identity fetch. -/
theorem mentionGather_no_auth (w : World) (lim : Nat) (copt : Option String) :
    ∀ c ∈ (mentionGather w lim copt).2, isAuthCall c = false := by
  intro c hc
  simp only [mentionGather, getChannels] at hc
  split at hc
  · split at hc
    · simp at hc
      subst hc
      rfl
    · simp at hc
      subst hc
      rfl
  · split at hc
    · simp at hc
      subst hc
      rfl
    · split at hc
      · simp at hc
        subst hc
        rfl
      · simp only [] at hc
        rcases List.mem_cons.mp hc with h1 | h1
        · subst h1
          rfl
        · exact scanChannels_no_auth w lim _ c h1

/-- The shared mention scan never issues the identity fetch. -/
theorem getMentions_no_auth (w : World) (args : Args) (uid : String) :
    ∀ c ∈ (getMentions w args uid).2, isAuthCall c = false := by
  intro c hc
  simp only [getMentions] at hc
  split at hc
  case _ e tr heq =>
    exact mentionScope_no_auth w args c (by rw [heq]; exact hc)
  case _ copt tr heq =>
    split at hc
    case _ e tr2 heq2 =>
      rcases List.mem_append.mp hc with h1 | h1
      · exact mentionScope_no_auth w args c (by rw [heq]; exact h1)
      · exact mentionGather_no_auth w (jsOr args.limit 10) copt c (by rw [heq2]; exact h1)
    case _ msgs tr2 heq2 =>
      rcases List.mem_append.mp hc with h1 | h1
      · exact mentionScope_no_auth w args c (by rw [heq]; exact h1)
      · exact mentionGather_no_auth w (jsOr args.limit 10) copt c (by rw [heq2]; exact h1)

/-- World for the C9 counterexample, startup phase: the identity endpoint
responds non-ok, so nothing is cached. -/
def w9a : World := { baseWorld with authResp := some ⟨false, none⟩ }

/-- World for the C9 counterexample, later mention call: the identity
endpoint now responds ok and the channel list is empty. -/
def w9b : World := { baseWorld with
  authResp := some ⟨true, some "U123"⟩
  listResp := fun _ _ => some ⟨true, []⟩ }

/-- Counterexample to C9 as stated: when the startup identity fetch fails,
a later mention-tool invocation issues the identity fetch again — two
`auth.test` requests in one process, refuting "fetched at most once per
process". -/
theorem c9_counterexample :
    (((runStartup w9a).2 ++
        (handleGetMentions w9b (runStartup w9a).1 args0).2.2).filter
      isAuthCall).length = 2 := rfl

/-- C9 amended: once the cached identity value has been obtained (is truthy),
a mention-tool invocation leaves the cache unchanged and issues no identity
fetch; the identity fetch is only retried while the cache is still empty. -/
theorem c9_amended_cached_identity (w : World) (st : Option String) (args : Args)
    (h : truthy st = true) :
    (handleGetMentions w st args).1 = st
    ∧ ((handleGetMentions w st args).2.2.filter isAuthCall) = [] := by
  by_cases hb : w.botTokenSet = true
  · have hnb : (!w.botTokenSet) = false := by rw [hb]; rfl
    cases hg : getMentions w args (st.getD "") with
    | mk res tr =>
      have hno : ∀ c ∈ tr, isAuthCall c = false := by
        intro c hcm
        exact getMentions_no_auth w args (st.getD "") c (by rw [hg]; exact hcm)
      cases res with
      | ok r =>
        constructor
        · simp [handleGetMentions, hnb, h, hg]
        · simp only [handleGetMentions, hnb, h, hg]
          simp only [Bool.not_true, Bool.false_eq_true, if_false]
          exact List.filter_eq_nil_iff.mpr (by intro c hcm; simp [hno c hcm])
      | error e =>
        constructor
        · simp [handleGetMentions, hnb, h, hg]
        · simp only [handleGetMentions, hnb, h, hg]
          simp only [Bool.not_true, Bool.false_eq_true, if_false]
          exact List.filter_eq_nil_iff.mpr (by intro c hcm; simp [hno c hcm])
  · have hnb : (!w.botTokenSet) = true := by
      cases hbv : w.botTokenSet
      · rfl
      · exact absurd hbv hb
    constructor
    · simp [handleGetMentions, hnb]
    · simp [handleGetMentions, hnb]

/-- Witness for C9 amended: with a cached identity present, a mention call
keeps it and performs no identity fetch. -/
theorem c9_witness :
    (handleGetMentions w9b (some "U123") args0).1 = some "U123"
    ∧ ((handleGetMentions w9b (some "U123") args0).2.2.filter isAuthCall) = [] :=
  c9_amended_cached_identity w9b (some "U123") args0 rfl

/-- Counterexample to C5 as stated: in the part_001 dispatcher an
unrecognized operation name does not fail the request at the transport
level — the thrown "Unknown tool" error is caught like any handler failure
and returned as a successful response carrying a textual error payload. -/
theorem c5_counterexample :
    dispatchV1 baseWorld "totally_unknown_tool" (some args0) =
      (.jsonError "Unknown tool: totally_unknown_tool", []) := rfl

/-- C5 amended: in the `SlackMcpServer` variant an unknown operation name
fails the request with a transport-level `MethodNotFound` fault while every
recognized operation (whose dispatch guards pass) yields a normal transport
response; in the part_001 variant even unknown operation names are caught
and answered with a textual error payload. -/
theorem c5_amended_dispatch_faults (w : World) (st : Option String) (args : Args)
    (n1 n2 : String) (h1 : isKnownTool n1 = false) (h2 : isKnownTool n2 = true)
    (hg : guardsPass n2 args = true) :
    (dispatchV2 w st n1 args).1 =
      .error ⟨.methodNotFound, "Unknown tool: " ++ n1⟩
    ∧ dispatchV1 w n1 (some args) = (.jsonError ("Unknown tool: " ++ n1), [])
    ∧ ∃ r, (dispatchV2 w st n2 args).1 = .ok r := by
  have f : ∀ s, isKnownTool s = true → ¬ n1 = s := by
    intro s hs heq
    rw [heq] at h1
    rw [h1] at hs
    cases hs
  have e1 : ¬ n1 = "channels_list_on_slack" := f _ (by decide)
  have e2 : ¬ n1 = "send_message_on_slack" := f _ (by decide)
  have e3 : ¬ n1 = "reply_to_thread_on_slack" := f _ (by decide)
  have e4 : ¬ n1 = "get_channel_history_on_slack" := f _ (by decide)
  have e5 : ¬ n1 = "get_thread_replies_on_slack" := f _ (by decide)
  have e6 : ¬ n1 = "get_users_on_slack" := f _ (by decide)
  have e7 : ¬ n1 = "get_user_profile_on_slack" := f _ (by decide)
  have e8 : ¬ n1 = "get_channel_messages_on_slack" := f _ (by decide)
  have e9 : ¬ n1 = "get_mentions_on_slack" := f _ (by decide)
  refine ⟨?_, ?_, ?_⟩
  · simp [dispatchV2, e1, e2, e3, e4, e5, e6, e7, e8, e9]
  · simp [dispatchV1, v1Core, e1, e2, e3, e4, e5, e6, e7, e8, e9]
  · have hd : n2 = "channels_list_on_slack" ∨ n2 = "send_message_on_slack"
        ∨ n2 = "reply_to_thread_on_slack" ∨ n2 = "get_channel_history_on_slack"
        ∨ n2 = "get_thread_replies_on_slack" ∨ n2 = "get_users_on_slack"
        ∨ n2 = "get_user_profile_on_slack" ∨ n2 = "get_channel_messages_on_slack"
        ∨ n2 = "get_mentions_on_slack" := by
      by_contra hall
      push_neg at hall
      obtain ⟨k1, k2, k3, k4, k5, k6, k7, k8, k9⟩ := hall
      simp [isKnownTool, k1, k2, k3, k4, k5, k6, k7, k8, k9] at h2
    rcases hd with hd | hd | hd | hd | hd | hd | hd | hd | hd
    · subst hd
      rcases hres : handleListChannels w args with ⟨r, tr⟩
      exact ⟨(st, r), by simp [dispatchV2, hres]⟩
    · subst hd
      rcases hres : handlePostMessage w args with ⟨r, tr⟩
      exact ⟨(st, r), by simp [dispatchV2, hres]⟩
    · subst hd
      have hg2 : (args.thread_ts.isSome && args.text.isSome) = true := hg
      rcases hres : handleReplyToThread w args with ⟨r, tr⟩
      exact ⟨(st, r), by simp [dispatchV2, hg2, hres]⟩
    · subst hd
      rcases hres : handleGetChannelHistory w args with ⟨r, tr⟩
      exact ⟨(st, r), by simp [dispatchV2, hres]⟩
    · subst hd
      have hg2 : args.thread_ts.isSome = true := hg
      rcases hres : handleGetThreadReplies w args with ⟨r, tr⟩
      exact ⟨(st, r), by simp [dispatchV2, hg2, hres]⟩
    · subst hd
      rcases hres : handleGetUsers w args with ⟨r, tr⟩
      exact ⟨(st, r), by simp [dispatchV2, hres]⟩
    · subst hd
      have hg2 : args.user_id.isSome = true := hg
      rcases hres : handleGetUserProfile w args with ⟨r, tr⟩
      exact ⟨(st, r), by simp [dispatchV2, hg2, hres]⟩
    · subst hd
      rcases hres : handleGetChannelMessages w args with ⟨r, tr⟩
      exact ⟨(st, r), by simp [dispatchV2, hres]⟩
    · subst hd
      rcases hres : handleGetMentions w st args with ⟨st2, r, tr⟩
      exact ⟨(st2, r), by simp [dispatchV2, hres]⟩

/-- Witness for C5 amended: a bogus name faults on the build variant and is
caught into a payload on the part_001 variant; a recognized name yields a
normal transport response. -/
theorem c5_witness :
    (dispatchV2 baseWorld none "bogus" args0).1 =
      .error ⟨.methodNotFound, "Unknown tool: " ++ "bogus"⟩
    ∧ dispatchV1 baseWorld "bogus" (some args0) =
        (.jsonError ("Unknown tool: " ++ "bogus"), [])
    ∧ ∃ r, (dispatchV2 baseWorld none "channels_list_on_slack" args0).1 = .ok r :=
  c5_amended_dispatch_faults baseWorld none args0 "bogus" "channels_list_on_slack"
    (by decide) (by decide) (by decide)

/-- Arguments for the C6 counterexample: a resolvable channel name but no
message text. -/
def args6 : Args := { channel_name := some "general" }

/-- Counterexample to C6 as stated: `send_message_on_slack` with a present
`channel_name` and a missing required `text` issues the upstream channel-list
call before reporting the missing argument — the error payload is produced
after one upstream request, not before any. -/
theorem c6_counterexample :
    dispatchV1 wFix "send_message_on_slack" (some args6) =
      (.jsonError "Missing required argument: text",
       [ApiCall.listChannels 200 none]) := rfl

/-- C6 amended: missing-argument checks precede all upstream calls for
`reply_to_thread_on_slack`, and for `send_message_on_slack` whenever no
channel-name resolution is triggered; but when `channel_id` is absent and
`channel_name` present, `send_message_on_slack` resolves the name upstream
first and only then reports a missing `text`. -/
theorem c6_amended_missing_arg_order (w : World) (args : Args) :
    (truthy args.channel_id = false ∨ truthy args.thread_ts = false
        ∨ truthy args.text = false →
      dispatchV1 w "reply_to_thread_on_slack" (some args) =
        (.jsonError "Missing required arguments: channel_id, thread_ts, and text", []))
    ∧ (truthy args.channel_id = false → truthy args.channel_name = false →
      dispatchV1 w "send_message_on_slack" (some args) =
        (.jsonError "Missing required argument: channel_id or channel_name", []))
    ∧ (truthy args.channel_id = true → truthy args.text = false →
      dispatchV1 w "send_message_on_slack" (some args) =
        (.jsonError "Missing required argument: text", []))
    ∧ (∀ n r ch, args.channel_id = none → args.channel_name = some n → n ≠ "" →
        truthy args.text = false →
        w.listResp 200 none = some r → r.ok = true →
        r.channels.find? (chanMatches n) = some ch → ch.id ≠ "" →
      dispatchV1 w "send_message_on_slack" (some args) =
        (.jsonError "Missing required argument: text",
         [ApiCall.listChannels 200 none])) := by
  refine ⟨?_, ?_, ?_, ?_⟩
  · intro h
    have hcond : (!truthy args.channel_id || !truthy args.thread_ts
        || !truthy args.text) = true := by
      rcases h with h | h | h <;> simp [h]
    simp [dispatchV1, v1Core, v1ReplyToThread, hcond]
  · intro h1 h2
    simp [dispatchV1, v1Core, v1SendMessage, inlineResolve, h1, h2]
  · intro h1 h2
    simp [dispatchV1, v1Core, v1SendMessage, inlineResolve, h1, h2]
  · intro n r ch hid hname hn htext hr hok hf hch
    have htn : truthy (none : Option String) = false := rfl
    have hnT : truthy (some n) = true := by simp [truthy, hn]
    have hchT : truthy (some ch.id) = true := by simp [truthy, hch]
    simp [dispatchV1, v1Core, v1SendMessage, inlineResolve, hid, hname, htn, hnT,
      getChannels, hr, hok, hf, hchT, htext]

/-- Witness for C6 amended: the missing-text error after a triggered name
resolution, at the fixture world. -/
theorem c6_witness :
    dispatchV1 wFix "send_message_on_slack" (some args6) =
      (.jsonError "Missing required argument: text",
       [ApiCall.listChannels 200 none]) :=
  (c6_amended_missing_arg_order wFix args6).2.2.2 "general"
    ⟨true, [chGeneral, chRandom]⟩ chGeneral rfl rfl (by decide) rfl rfl rfl
    (by decide) (by decide)

end SlackMcp
